import Mathlib

/-!
Shallow embedding of the customer health score calculator
(`src/lib/healthCalculator.ts`).

Modelling decisions:
* JavaScript numbers are modelled as exact rationals (`ℚ`); floating-point
  rounding is abstracted away.  `Math.round` is `fun x => ⌊x + 1/2⌋` (JS
  rounds halves toward +∞), `Math.min`/`Math.max` are `min`/`max` on `ℚ`.
* To express the validation layer faithfully (presence and finiteness
  checks), a raw JavaScript numeric field is a `JSVal`: either `undef`
  (absent / `undefined`), `nan`, `inf`, `neginf`, or a finite number
  `num q`.  Optional numeric fields use `undef` for "absent", matching the
  `!== undefined` guards of the source.
* Thrown errors become an `Except ScoreError` result; `ScoreError` has the
  two constructors corresponding to the source classes `InvalidInputError` and
  `CalculationError` classes, each carrying its message string.
* The computation timestamp (`new Date()` in the source) is threaded as an
  explicit parameter `now : ℤ` so that determinism of everything except the
  timestamp is expressible.
-/

namespace HealthCalc

/-- A raw JavaScript numeric value as far as the validators can observe it:
absent (`undefined`), `NaN`, `±Infinity`, or a finite number. -/
inductive JSVal where
  | undef : JSVal
  | nan : JSVal
  | inf : JSVal
  | neginf : JSVal
  | num : ℚ → JSVal
deriving DecidableEq, Repr

namespace JSVal

/-- `Number.isFinite` -/
def isFinite : JSVal → Bool
  | num _ => true
  | _ => false

/-- JavaScript `value < q` (comparisons with `NaN` are false). -/
def ltB : JSVal → ℚ → Bool
  | num x, q => decide (x < q)
  | neginf, _ => true
  | _, _ => false

/-- JavaScript `value > q` (comparisons with `NaN` are false). -/
def gtB : JSVal → ℚ → Bool
  | num x, q => decide (q < x)
  | inf, _ => true
  | _, _ => false

/-- String interpolation of the value into an error message
(`${value}` in the source templates). -/
def render : JSVal → String
  | undef => "undefined"
  | nan => "NaN"
  | inf => "Infinity"
  | neginf => "-Infinity"
  | num q => toString q

/-- Extract the finite numeric value; only used after `isFinite` has been
validated, the junk value on the other constructors is never reached. -/
def toQ : JSVal → ℚ
  | num q => q
  | _ => 0

end JSVal

/-- The two error classes of the source, as a sum type carrying the
message string. -/
inductive ScoreError where
  | invalidInput : String → ScoreError
  | calculationError : String → ScoreError
deriving DecidableEq, Repr

/-- Message of `validateRequired`. -/
def msgRequired (fieldName : String) : String :=
  fieldName ++ " is required but was not provided"

/-- Message of `validateFiniteNumber`. -/
def msgFinite (fieldName : String) (value : JSVal) : String :=
  fieldName ++ " must be a finite number, got " ++ value.render

/-- Message of `validateNonNegative`. -/
def msgNonNegative (fieldName : String) (value : JSVal) : String :=
  fieldName ++ " must be non-negative, got " ++ value.render

/-- Message of `validateRange`. -/
def msgRange (fieldName : String) (lo hi : ℚ) (value : JSVal) : String :=
  fieldName ++ " must be between " ++ toString lo ++ " and " ++ toString hi
    ++ ", got " ++ value.render

/-- `validateRequired`: fails iff the value is absent.  (The embedding has
no `null`; `undef` stands for the absent value.) -/
def validateRequired (value : JSVal) (fieldName : String) : Option ScoreError :=
  if value = .undef then some (.invalidInput (msgRequired fieldName)) else none

/-- `validateFiniteNumber`: fails iff the value is not a finite number. -/
def validateFiniteNumber (value : JSVal) (fieldName : String) : Option ScoreError :=
  if value.isFinite then none else some (.invalidInput (msgFinite fieldName value))

/-- `validateNonNegative`: fails iff `value < 0` (false for `NaN`). -/
def validateNonNegative (value : JSVal) (fieldName : String) : Option ScoreError :=
  if value.ltB 0 then some (.invalidInput (msgNonNegative fieldName value)) else none

/-- `validateRange`: fails iff `value < min || value > max`
(both comparisons false for `NaN`). -/
def validateRange (value : JSVal) (lo hi : ℚ) (fieldName : String) : Option ScoreError :=
  if value.ltB lo || value.gtB hi then
    some (.invalidInput (msgRange fieldName lo hi value))
  else none

/-- First failure of a sequence of validation checks: models a block of
statements each of which may throw, executed in order. -/
def firstErr : List (Option ScoreError) → Option ScoreError
  | [] => none
  | some e :: _ => some e
  | none :: rest => firstErr rest

/-- `clampScore`: clamps a value between 0 and 100. -/
def clampScore (score : ℚ) : ℚ :=
  max 0 (min 100 score)

/-- `normalizeToScore`: rescales `value` from `[lo,hi]` to 0–100,
higher values giving higher scores; 50 when the range is degenerate. -/
def normalizeToScore (value lo hi : ℚ) : ℚ :=
  if hi = lo then 50
  else clampScore ((value - lo) / (hi - lo) * 100)

/-- `inverseNormalizeToScore`: rescales `value` from `[lo,hi]` to 0–100,
higher values giving lower scores; 50 when the range is degenerate. -/
def inverseNormalizeToScore (value lo hi : ℚ) : ℚ :=
  if hi = lo then 50
  else clampScore ((hi - value) / (hi - lo) * 100)

/-- `Math.round`: nearest integer, halves toward `+∞`. -/
def jsRound (x : ℚ) : ℚ :=
  (((x + 1/2).floor : ℤ) : ℚ)

/-- `PaymentHistory` with raw JavaScript numeric fields;
`paymentConsistency` is optional (`undef` = absent). -/
structure PaymentHistory where
  daysSinceLastPayment : JSVal
  averagePaymentDelay : JSVal
  overdueAmount : JSVal
  paymentConsistency : JSVal
deriving DecidableEq, Repr

/-- The validation block of `calculatePaymentScore`, in source order:
presence of the three required fields, then finiteness of the three, then
non-negativity of the three, then (only if present) finiteness and range
of the optional `paymentConsistency`. -/
def validatePayment (d : PaymentHistory) : Option ScoreError :=
  firstErr
    ([validateRequired d.daysSinceLastPayment "daysSinceLastPayment",
      validateRequired d.averagePaymentDelay "averagePaymentDelay",
      validateRequired d.overdueAmount "overdueAmount",
      validateFiniteNumber d.daysSinceLastPayment "daysSinceLastPayment",
      validateFiniteNumber d.averagePaymentDelay "averagePaymentDelay",
      validateFiniteNumber d.overdueAmount "overdueAmount",
      validateNonNegative d.daysSinceLastPayment "daysSinceLastPayment",
      validateNonNegative d.averagePaymentDelay "averagePaymentDelay",
      validateNonNegative d.overdueAmount "overdueAmount"] ++
    (if d.paymentConsistency = .undef then []
     else
      [validateFiniteNumber d.paymentConsistency "paymentConsistency",
       validateRange d.paymentConsistency 0 1 "paymentConsistency"]))

/-- The arithmetic part of `calculatePaymentScore`, on the already
validated finite field values. -/
def computePaymentScore (daysSinceLastPayment averagePaymentDelay overdueAmount : ℚ)
    (paymentConsistency : Option ℚ) : ℚ :=
  let daysSinceScore := inverseNormalizeToScore (min daysSinceLastPayment 60) 0 60
  let delayScore := inverseNormalizeToScore (min averagePaymentDelay 30) 0 30
  let overdueScore := inverseNormalizeToScore (min overdueAmount 10000) 0 10000
  let baseScore := daysSinceScore * 0.3 + delayScore * 0.35 + overdueScore * 0.35
  let baseScore :=
    match paymentConsistency with
    | some pc => min 100 (baseScore + pc * 10)
    | none => baseScore
  jsRound (clampScore baseScore)

/-- `calculatePaymentScore`. -/
def calculatePaymentScore (paymentData : PaymentHistory) : Except ScoreError ℚ :=
  match validatePayment paymentData with
  | some e => .error e
  | none =>
      .ok (computePaymentScore paymentData.daysSinceLastPayment.toQ
        paymentData.averagePaymentDelay.toQ paymentData.overdueAmount.toQ
        (if paymentData.paymentConsistency = .undef then none
         else some paymentData.paymentConsistency.toQ))

/-- `EngagementMetrics`; `activeUserCount` is optional (`undef` = absent). -/
structure EngagementMetrics where
  loginsPerMonth : JSVal
  featureUsageCount : JSVal
  supportTicketsOpened : JSVal
  activeUserCount : JSVal
deriving DecidableEq, Repr

/-- The validation block of `calculateEngagementScore`, in source order. -/
def validateEngagement (d : EngagementMetrics) : Option ScoreError :=
  firstErr
    ([validateRequired d.loginsPerMonth "loginsPerMonth",
      validateRequired d.featureUsageCount "featureUsageCount",
      validateRequired d.supportTicketsOpened "supportTicketsOpened",
      validateFiniteNumber d.loginsPerMonth "loginsPerMonth",
      validateFiniteNumber d.featureUsageCount "featureUsageCount",
      validateFiniteNumber d.supportTicketsOpened "supportTicketsOpened",
      validateNonNegative d.loginsPerMonth "loginsPerMonth",
      validateNonNegative d.featureUsageCount "featureUsageCount",
      validateNonNegative d.supportTicketsOpened "supportTicketsOpened"] ++
    (if d.activeUserCount = .undef then []
     else
      [validateFiniteNumber d.activeUserCount "activeUserCount",
       validateNonNegative d.activeUserCount "activeUserCount"]))

/-- The arithmetic part of `calculateEngagementScore`. -/
def computeEngagementScore (loginsPerMonth featureUsageCount supportTicketsOpened : ℚ)
    (activeUserCount : Option ℚ) : ℚ :=
  let loginScore := normalizeToScore (min loginsPerMonth 60) 0 60
  let featureScore := normalizeToScore (min featureUsageCount 20) 0 20
  let ticketScore :=
    if supportTicketsOpened ≤ 5 then (100 : ℚ)
    else if supportTicketsOpened ≤ 15 then
      inverseNormalizeToScore supportTicketsOpened 5 15
    else inverseNormalizeToScore (min supportTicketsOpened 30) 15 30
  let baseScore := loginScore * 0.4 + featureScore * 0.4 + ticketScore * 0.2
  let baseScore :=
    match activeUserCount with
    | some auc => min 100 (baseScore + normalizeToScore (min auc 10) 1 10 * 0.15)
    | none => baseScore
  jsRound (clampScore baseScore)

/-- `calculateEngagementScore`. -/
def calculateEngagementScore (engagementData : EngagementMetrics) : Except ScoreError ℚ :=
  match validateEngagement engagementData with
  | some e => .error e
  | none =>
      .ok (computeEngagementScore engagementData.loginsPerMonth.toQ
        engagementData.featureUsageCount.toQ engagementData.supportTicketsOpened.toQ
        (if engagementData.activeUserCount = .undef then none
         else some engagementData.activeUserCount.toQ))

/-- `ContractInfo`.  `hasRecentUpgrades` is a required boolean (always
present in the typed record, so its `validateRequired` check always
passes); `autoRenewalEnabled` is an optional boolean, whose
`typeof`-is-boolean guard likewise always passes. -/
structure ContractInfo where
  daysUntilRenewal : JSVal
  contractValue : JSVal
  hasRecentUpgrades : Bool
  autoRenewalEnabled : Option Bool
deriving DecidableEq, Repr

/-- The validation block of `calculateContractScore`, in source order
(no non-negativity check on `daysUntilRenewal`: it may be negative). -/
def validateContract (d : ContractInfo) : Option ScoreError :=
  firstErr
    [validateRequired d.daysUntilRenewal "daysUntilRenewal",
     validateRequired d.contractValue "contractValue",
     validateFiniteNumber d.daysUntilRenewal "daysUntilRenewal",
     validateFiniteNumber d.contractValue "contractValue",
     validateNonNegative d.contractValue "contractValue"]

/-- The arithmetic part of `calculateContractScore`. -/
def computeContractScore (daysUntilRenewal contractValue : ℚ)
    (hasRecentUpgrades : Bool) (autoRenewalEnabled : Option Bool) : ℚ :=
  let renewalScore :=
    if daysUntilRenewal < 0 then (0 : ℚ)
    else if daysUntilRenewal < 30 then
      normalizeToScore daysUntilRenewal 0 30 * 0.5
    else if daysUntilRenewal < 180 then
      50 + normalizeToScore (daysUntilRenewal - 30) 0 150 * 0.3
    else 80 + normalizeToScore (min (daysUntilRenewal - 180) 180) 0 180 * 0.2
  let valueScore := normalizeToScore (min contractValue 100000) 0 100000
  let upgradeBonus : ℚ := if hasRecentUpgrades then 15 else 0
  let autoRenewalBonus : ℚ := if autoRenewalEnabled = some true then 10 else 0
  let baseScore := renewalScore * 0.5 + valueScore * 0.5
  let finalScore := min 100 (baseScore + upgradeBonus + autoRenewalBonus)
  jsRound (clampScore finalScore)

/-- `calculateContractScore`. -/
def calculateContractScore (contractData : ContractInfo) : Except ScoreError ℚ :=
  match validateContract contractData with
  | some e => .error e
  | none =>
      .ok (computeContractScore contractData.daysUntilRenewal.toQ
        contractData.contractValue.toQ contractData.hasRecentUpgrades
        contractData.autoRenewalEnabled)

/-- `SupportData` (all four fields required). -/
structure SupportData where
  averageResolutionTimeHours : JSVal
  satisfactionScore : JSVal
  escalationCount : JSVal
  openTicketCount : JSVal
deriving DecidableEq, Repr

/-- The validation block of `calculateSupportScore`, in source order. -/
def validateSupport (d : SupportData) : Option ScoreError :=
  firstErr
    [validateRequired d.averageResolutionTimeHours "averageResolutionTimeHours",
     validateRequired d.satisfactionScore "satisfactionScore",
     validateRequired d.escalationCount "escalationCount",
     validateRequired d.openTicketCount "openTicketCount",
     validateFiniteNumber d.averageResolutionTimeHours "averageResolutionTimeHours",
     validateFiniteNumber d.satisfactionScore "satisfactionScore",
     validateFiniteNumber d.escalationCount "escalationCount",
     validateFiniteNumber d.openTicketCount "openTicketCount",
     validateNonNegative d.averageResolutionTimeHours "averageResolutionTimeHours",
     validateRange d.satisfactionScore 1 5 "satisfactionScore",
     validateNonNegative d.escalationCount "escalationCount",
     validateNonNegative d.openTicketCount "openTicketCount"]

/-- The arithmetic part of `calculateSupportScore`. -/
def computeSupportScore
    (averageResolutionTimeHours satisfactionScore escalationCount openTicketCount : ℚ) : ℚ :=
  let resolutionScore := inverseNormalizeToScore (min averageResolutionTimeHours 72) 0 72
  let satisfactionScoreNormalized := normalizeToScore satisfactionScore 1 5
  let escalationScore := inverseNormalizeToScore (min escalationCount 10) 0 10
  let openTicketScore := inverseNormalizeToScore (min openTicketCount 20) 0 20
  let finalScore := resolutionScore * 0.25 + satisfactionScoreNormalized * 0.4 +
    escalationScore * 0.2 + openTicketScore * 0.15
  jsRound (clampScore finalScore)

/-- `calculateSupportScore`. -/
def calculateSupportScore (supportData : SupportData) : Except ScoreError ℚ :=
  match validateSupport supportData with
  | some e => .error e
  | none =>
      .ok (computeSupportScore supportData.averageResolutionTimeHours.toQ
        supportData.satisfactionScore.toQ supportData.escalationCount.toQ
        supportData.openTicketCount.toQ)

/-- `RiskLevel`. -/
inductive RiskLevel where
  | healthy : RiskLevel
  | warning : RiskLevel
  | critical : RiskLevel
deriving DecidableEq, Repr

/-- `FactorScore`. -/
structure FactorScore where
  score : ℚ
  weight : ℚ
  weightedScore : ℚ
deriving DecidableEq, Repr

/-- The `breakdown` field of `HealthScoreResult`. -/
structure Breakdown where
  payment : FactorScore
  engagement : FactorScore
  contract : FactorScore
  support : FactorScore
deriving DecidableEq, Repr

/-- `HealthScoreResult`; `calculatedAt` is the timestamp as an integer
(milliseconds of `new Date()`). -/
structure HealthScoreResult where
  overallScore : ℚ
  riskLevel : RiskLevel
  breakdown : Breakdown
  calculatedAt : ℤ
  customerId : Option String
deriving DecidableEq, Repr

/-- `CustomerHealthData`.  The four sub-records of the typed record are
always present, so the `validateRequired(customerData.payment)` checks of
the aggregator always pass in the embedding. -/
structure CustomerHealthData where
  payment : PaymentHistory
  engagement : EngagementMetrics
  contract : ContractInfo
  support : SupportData
  customerId : Option String
deriving DecidableEq, Repr

/-- The fixed top-level weights (the `WEIGHTS` constant). -/
def WEIGHTS_payment : ℚ := 0.4
def WEIGHTS_engagement : ℚ := 0.3
def WEIGHTS_contract : ℚ := 0.2
def WEIGHTS_support : ℚ := 0.1

/-- The `try` block of `calculateHealthScore`: sub-record presence checks
(which always pass on the typed record), the four factor scorer calls, the
weighted aggregation, risk classification and result assembly.  `now` is
the value of `new Date()`. -/
def healthScoreBody (now : ℤ) (customerData : CustomerHealthData) :
    Except ScoreError HealthScoreResult := do
  let paymentScore ← calculatePaymentScore customerData.payment
  let engagementScore ← calculateEngagementScore customerData.engagement
  let contractScore ← calculateContractScore customerData.contract
  let supportScore ← calculateSupportScore customerData.support
  let paymentWeighted := paymentScore * WEIGHTS_payment
  let engagementWeighted := engagementScore * WEIGHTS_engagement
  let contractWeighted := contractScore * WEIGHTS_contract
  let supportWeighted := supportScore * WEIGHTS_support
  let overallScore := jsRound
    (paymentWeighted + engagementWeighted + contractWeighted + supportWeighted)
  let riskLevel : RiskLevel :=
    if overallScore ≥ 71 then .healthy
    else if overallScore ≥ 31 then .warning
    else .critical
  pure
    { overallScore := overallScore
      riskLevel := riskLevel
      breakdown :=
        { payment :=
            { score := paymentScore, weight := WEIGHTS_payment
              weightedScore := paymentWeighted }
          engagement :=
            { score := engagementScore, weight := WEIGHTS_engagement
              weightedScore := engagementWeighted }
          contract :=
            { score := contractScore, weight := WEIGHTS_contract
              weightedScore := contractWeighted }
          support :=
            { score := supportScore, weight := WEIGHTS_support
              weightedScore := supportWeighted } }
      calculatedAt := now
      customerId := customerData.customerId }

/-- `error instanceof InvalidInputError` as a boolean discriminator. -/
def ScoreError.isInvalidInput : ScoreError → Bool
  | .invalidInput _ => true
  | .calculationError _ => false

/-- `error.message`. -/
def ScoreError.message : ScoreError → String
  | .invalidInput m => m
  | .calculationError m => m

/-- The `catch` clause of `calculateHealthScore`: an `InvalidInputError`
is rethrown unchanged, anything else is wrapped into a `CalculationError`
that carries the original message. -/
def wrapCaughtError (e : ScoreError) : ScoreError :=
  match e with
  | .invalidInput m => .invalidInput m
  | .calculationError m =>
      .calculationError ("Failed to calculate health score: " ++ m)

/-- `calculateHealthScore`: the `try` body with the `catch` clause. -/
def calculateHealthScore (now : ℤ) (customerData : CustomerHealthData) :
    Except ScoreError HealthScoreResult :=
  match healthScoreBody now customerData with
  | .ok r => .ok r
  | .error e => .error (wrapCaughtError e)

/-- The error component of a scorer result (`some e` when the call threw
`e`, `none` when it returned a score). -/
def errorOf (r : Except ScoreError ℚ) : Option ScoreError :=
  match r with
  | .error e => some e
  | .ok _ => none

section Lemmas

/-- `Rat.floor` agrees with the `Int.floor` of Mathlib on `ℚ`. -/
theorem ratFloor_eq_intFloor (q : ℚ) : q.floor = ⌊q⌋ := by
  rw [Rat.floor_def', Rat.floor_def]

theorem jsRound_eq_intFloor (x : ℚ) : jsRound x = ((⌊x + 1/2⌋ : ℤ) : ℚ) := by
  rw [jsRound, ratFloor_eq_intFloor]

theorem clampScore_nonneg (x : ℚ) : 0 ≤ clampScore x :=
  le_max_left 0 _

theorem clampScore_le_100 (x : ℚ) : clampScore x ≤ 100 :=
  max_le (by norm_num) (min_le_left 100 x)

theorem clampScore_mono {x y : ℚ} (h : x ≤ y) : clampScore x ≤ clampScore y :=
  max_le_max le_rfl (min_le_min le_rfl h)

theorem normalizeToScore_nonneg (v lo hi : ℚ) : 0 ≤ normalizeToScore v lo hi := by
  unfold normalizeToScore
  split
  · norm_num
  · exact clampScore_nonneg _

theorem normalizeToScore_le_100 (v lo hi : ℚ) : normalizeToScore v lo hi ≤ 100 := by
  unfold normalizeToScore
  split
  · norm_num
  · exact clampScore_le_100 _

theorem inverseNormalizeToScore_nonneg (v lo hi : ℚ) :
    0 ≤ inverseNormalizeToScore v lo hi := by
  unfold inverseNormalizeToScore
  split
  · norm_num
  · exact clampScore_nonneg _

theorem inverseNormalizeToScore_le_100 (v lo hi : ℚ) :
    inverseNormalizeToScore v lo hi ≤ 100 := by
  unfold inverseNormalizeToScore
  split
  · norm_num
  · exact clampScore_le_100 _

/-- Rounding a value of `[0,100]` stays in `[0,100]` and is an integer. -/
theorem jsRound_bounds {x : ℚ} (h0 : 0 ≤ x) (h1 : x ≤ 100) :
    0 ≤ jsRound x ∧ jsRound x ≤ 100 ∧ ∃ n : ℤ, jsRound x = (n : ℚ) := by
  rw [jsRound_eq_intFloor]
  refine ⟨?_, ?_, ⌊x + 1/2⌋, rfl⟩
  · have : (0 : ℤ) ≤ ⌊x + 1/2⌋ := by
      rw [Int.le_floor]
      push_cast
      linarith
    exact_mod_cast this
  · have : ⌊x + 1/2⌋ < 101 := by
      rw [Int.floor_lt]
      push_cast
      linarith
    have : ⌊x + 1/2⌋ ≤ 100 := by omega
    exact_mod_cast this

/-- Every factor score has the form `jsRound (clampScore b)`, so it is an
integer in `[0,100]`. -/
theorem jsRound_clampScore_bounds (x : ℚ) :
    0 ≤ jsRound (clampScore x) ∧ jsRound (clampScore x) ≤ 100 ∧
      ∃ n : ℤ, jsRound (clampScore x) = (n : ℚ) :=
  jsRound_bounds (clampScore_nonneg x) (clampScore_le_100 x)

theorem computePaymentScore_bounds (a b c : ℚ) (oc : Option ℚ) :
    0 ≤ computePaymentScore a b c oc ∧ computePaymentScore a b c oc ≤ 100 ∧
      ∃ n : ℤ, computePaymentScore a b c oc = (n : ℚ) := by
  unfold computePaymentScore
  exact jsRound_clampScore_bounds _

theorem computeEngagementScore_bounds (a b c : ℚ) (oc : Option ℚ) :
    0 ≤ computeEngagementScore a b c oc ∧ computeEngagementScore a b c oc ≤ 100 ∧
      ∃ n : ℤ, computeEngagementScore a b c oc = (n : ℚ) := by
  unfold computeEngagementScore
  exact jsRound_clampScore_bounds _

theorem computeContractScore_bounds (a b : ℚ) (u : Bool) (ar : Option Bool) :
    0 ≤ computeContractScore a b u ar ∧ computeContractScore a b u ar ≤ 100 ∧
      ∃ n : ℤ, computeContractScore a b u ar = (n : ℚ) := by
  unfold computeContractScore
  exact jsRound_clampScore_bounds _

theorem computeSupportScore_bounds (a b c d : ℚ) :
    0 ≤ computeSupportScore a b c d ∧ computeSupportScore a b c d ≤ 100 ∧
      ∃ n : ℤ, computeSupportScore a b c d = (n : ℚ) := by
  unfold computeSupportScore
  exact jsRound_clampScore_bounds _

theorem calculatePaymentScore_ok_bounds {d : PaymentHistory} {q : ℚ}
    (h : calculatePaymentScore d = .ok q) :
    0 ≤ q ∧ q ≤ 100 ∧ ∃ n : ℤ, q = (n : ℚ) := by
  unfold calculatePaymentScore at h
  split at h
  · exact absurd h (by simp)
  · obtain rfl : _ = q := by injection h
    exact computePaymentScore_bounds _ _ _ _

theorem calculateEngagementScore_ok_bounds {d : EngagementMetrics} {q : ℚ}
    (h : calculateEngagementScore d = .ok q) :
    0 ≤ q ∧ q ≤ 100 ∧ ∃ n : ℤ, q = (n : ℚ) := by
  unfold calculateEngagementScore at h
  split at h
  · exact absurd h (by simp)
  · obtain rfl : _ = q := by injection h
    exact computeEngagementScore_bounds _ _ _ _

theorem calculateContractScore_ok_bounds {d : ContractInfo} {q : ℚ}
    (h : calculateContractScore d = .ok q) :
    0 ≤ q ∧ q ≤ 100 ∧ ∃ n : ℤ, q = (n : ℚ) := by
  unfold calculateContractScore at h
  split at h
  · exact absurd h (by simp)
  · obtain rfl : _ = q := by injection h
    exact computeContractScore_bounds _ _ _ _

theorem calculateSupportScore_ok_bounds {d : SupportData} {q : ℚ}
    (h : calculateSupportScore d = .ok q) :
    0 ≤ q ∧ q ≤ 100 ∧ ∃ n : ℤ, q = (n : ℚ) := by
  unfold calculateSupportScore at h
  split at h
  · exact absurd h (by simp)
  · obtain rfl : _ = q := by injection h
    exact computeSupportScore_bounds _ _ _ _

/-- Inversion for a successful `calculateHealthScore` call: the four factor
scorers succeeded and the result record is exactly the one the aggregator
assembles from their scores. -/
theorem calculateHealthScore_ok_inv {now : ℤ} {d : CustomerHealthData}
    {r : HealthScoreResult} (h : calculateHealthScore now d = .ok r) :
    ∃ p e c s, calculatePaymentScore d.payment = .ok p ∧
      calculateEngagementScore d.engagement = .ok e ∧
      calculateContractScore d.contract = .ok c ∧
      calculateSupportScore d.support = .ok s ∧
      r = { overallScore := jsRound (p * WEIGHTS_payment + e * WEIGHTS_engagement +
              c * WEIGHTS_contract + s * WEIGHTS_support)
            riskLevel :=
              if jsRound (p * WEIGHTS_payment + e * WEIGHTS_engagement +
                  c * WEIGHTS_contract + s * WEIGHTS_support) ≥ 71 then .healthy
              else if jsRound (p * WEIGHTS_payment + e * WEIGHTS_engagement +
                  c * WEIGHTS_contract + s * WEIGHTS_support) ≥ 31 then .warning
              else .critical
            breakdown :=
              { payment := ⟨p, WEIGHTS_payment, p * WEIGHTS_payment⟩
                engagement := ⟨e, WEIGHTS_engagement, e * WEIGHTS_engagement⟩
                contract := ⟨c, WEIGHTS_contract, c * WEIGHTS_contract⟩
                support := ⟨s, WEIGHTS_support, s * WEIGHTS_support⟩ }
            calculatedAt := now
            customerId := d.customerId } := by
  unfold calculateHealthScore at h
  split at h
  case h_2 => exact absurd h (by simp)
  case h_1 r' hb =>
    obtain rfl : r' = r := by injection h
    unfold healthScoreBody at hb
    rcases hp : calculatePaymentScore d.payment with ep | p <;> rw [hp] at hb
    · exact absurd hb (by simp [Bind.bind, Except.bind])
    rcases he : calculateEngagementScore d.engagement with ee | e <;> rw [he] at hb
    · exact absurd hb (by simp [Bind.bind, Except.bind])
    rcases hc : calculateContractScore d.contract with ec | c <;> rw [hc] at hb
    · exact absurd hb (by simp [Bind.bind, Except.bind])
    rcases hs : calculateSupportScore d.support with es | s <;> rw [hs] at hb
    · exact absurd hb (by simp [Bind.bind, Except.bind])
    refine ⟨p, e, c, s, rfl, rfl, rfl, rfl, ?_⟩
    simp only [Bind.bind, Except.bind, pure, Except.pure] at hb
    injection hb with hb
    exact hb.symm

end Lemmas

section Fixtures

/-- A concrete fully valid customer record used to instantiate the
hypotheses of the theorems below. -/
def goodData : CustomerHealthData :=
  { payment := ⟨.num 0, .num 0, .num 0, .undef⟩
    engagement := ⟨.num 60, .num 20, .num 0, .undef⟩
    contract := ⟨.num 360, .num 100000, true, some true⟩
    support := ⟨.num 0, .num 5, .num 0, .num 0⟩
    customerId := none }

/-- The result `calculateHealthScore` produces on `goodData` at time `now`. -/
def goodResultAt (now : ℤ) : HealthScoreResult :=
  { overallScore := 100
    riskLevel := .healthy
    breakdown :=
      { payment := ⟨100, 0.4, 40⟩
        engagement := ⟨100, 0.3, 30⟩
        contract := ⟨100, 0.2, 20⟩
        support := ⟨100, 0.1, 10⟩ }
    calculatedAt := now
    customerId := none }

theorem calculateHealthScore_goodData (now : ℤ) :
    calculateHealthScore now goodData = .ok (goodResultAt now) := by
  simp only [calculateHealthScore, healthScoreBody, goodData, goodResultAt,
    calculatePaymentScore, validatePayment, computePaymentScore,
    calculateEngagementScore, validateEngagement, computeEngagementScore,
    calculateContractScore, validateContract, computeContractScore,
    calculateSupportScore, validateSupport, computeSupportScore,
    validateRequired, validateFiniteNumber, validateNonNegative, validateRange,
    firstErr, JSVal.isFinite, JSVal.ltB, JSVal.gtB, JSVal.toQ,
    normalizeToScore, inverseNormalizeToScore, clampScore, jsRound,
    WEIGHTS_payment, WEIGHTS_engagement, WEIGHTS_contract, WEIGHTS_support,
    bind, Except.bind, pure, Except.pure]
  norm_num [min_def, max_def, Rat.floor_def']

end Fixtures

section Claims

/-- C2: every factor scorer that returns does so with an integer score in
`[0,100]` (the rounding to the nearest integer is the `jsRound` in each
definition of each scorer), and a successful `calculateHealthScore` has an
integer `overallScore` in `[0,100]` and all four breakdown scores in
`[0,100]`. -/
theorem scores_in_range :
    (∀ d q, calculatePaymentScore d = .ok q →
      0 ≤ q ∧ q ≤ 100 ∧ ∃ n : ℤ, q = (n : ℚ)) ∧
    (∀ d q, calculateEngagementScore d = .ok q →
      0 ≤ q ∧ q ≤ 100 ∧ ∃ n : ℤ, q = (n : ℚ)) ∧
    (∀ d q, calculateContractScore d = .ok q →
      0 ≤ q ∧ q ≤ 100 ∧ ∃ n : ℤ, q = (n : ℚ)) ∧
    (∀ d q, calculateSupportScore d = .ok q →
      0 ≤ q ∧ q ≤ 100 ∧ ∃ n : ℤ, q = (n : ℚ)) ∧
    (∀ now d r, calculateHealthScore now d = .ok r →
      (0 ≤ r.overallScore ∧ r.overallScore ≤ 100 ∧ ∃ n : ℤ, r.overallScore = (n : ℚ)) ∧
      (0 ≤ r.breakdown.payment.score ∧ r.breakdown.payment.score ≤ 100) ∧
      (0 ≤ r.breakdown.engagement.score ∧ r.breakdown.engagement.score ≤ 100) ∧
      (0 ≤ r.breakdown.contract.score ∧ r.breakdown.contract.score ≤ 100) ∧
      (0 ≤ r.breakdown.support.score ∧ r.breakdown.support.score ≤ 100)) := by
  refine ⟨fun d q h => calculatePaymentScore_ok_bounds h,
    fun d q h => calculateEngagementScore_ok_bounds h,
    fun d q h => calculateContractScore_ok_bounds h,
    fun d q h => calculateSupportScore_ok_bounds h,
    fun now d r h => ?_⟩
  obtain ⟨p, e, c, s, hp, he, hc, hs, rfl⟩ := calculateHealthScore_ok_inv h
  obtain ⟨hp0, hp1, -⟩ := calculatePaymentScore_ok_bounds hp
  obtain ⟨he0, he1, -⟩ := calculateEngagementScore_ok_bounds he
  obtain ⟨hc0, hc1, -⟩ := calculateContractScore_ok_bounds hc
  obtain ⟨hs0, hs1, -⟩ := calculateSupportScore_ok_bounds hs
  refine ⟨?_, ⟨hp0, hp1⟩, ⟨he0, he1⟩, ⟨hc0, hc1⟩, ⟨hs0, hs1⟩⟩
  simp only [WEIGHTS_payment, WEIGHTS_engagement, WEIGHTS_contract, WEIGHTS_support]
  exact jsRound_bounds (by nlinarith) (by nlinarith)

/-- C2 witness: the theorem instantiated at the concrete
fixture `goodData`. -/
theorem scores_in_range_witness :
    (0 ≤ (goodResultAt 0).overallScore ∧ (goodResultAt 0).overallScore ≤ 100 ∧
      ∃ n : ℤ, (goodResultAt 0).overallScore = (n : ℚ)) ∧
    (0 ≤ (goodResultAt 0).breakdown.payment.score ∧
      (goodResultAt 0).breakdown.payment.score ≤ 100) ∧
    (0 ≤ (goodResultAt 0).breakdown.engagement.score ∧
      (goodResultAt 0).breakdown.engagement.score ≤ 100) ∧
    (0 ≤ (goodResultAt 0).breakdown.contract.score ∧
      (goodResultAt 0).breakdown.contract.score ≤ 100) ∧
    (0 ≤ (goodResultAt 0).breakdown.support.score ∧
      (goodResultAt 0).breakdown.support.score ≤ 100) :=
  scores_in_range.2.2.2.2 0 goodData (goodResultAt 0) (calculateHealthScore_goodData 0)

/-- C3: every successful result carries the four fixed weights
0.40/0.30/0.20/0.10 in its breakdown, and they sum to exactly 1. -/
theorem weights_fixed_sum_one (now : ℤ) (d : CustomerHealthData)
    (r : HealthScoreResult) (h : calculateHealthScore now d = .ok r) :
    r.breakdown.payment.weight = 0.4 ∧ r.breakdown.engagement.weight = 0.3 ∧
    r.breakdown.contract.weight = 0.2 ∧ r.breakdown.support.weight = 0.1 ∧
    r.breakdown.payment.weight + r.breakdown.engagement.weight +
      r.breakdown.contract.weight + r.breakdown.support.weight = 1 := by
  obtain ⟨p, e, c, s, -, -, -, -, rfl⟩ := calculateHealthScore_ok_inv h
  refine ⟨rfl, rfl, rfl, rfl, ?_⟩
  norm_num [WEIGHTS_payment, WEIGHTS_engagement, WEIGHTS_contract, WEIGHTS_support]

/-- C3 witness: the weight facts at the concrete fixture `goodData`. -/
theorem weights_fixed_sum_one_witness :
    (goodResultAt 0).breakdown.payment.weight = 0.4 ∧
    (goodResultAt 0).breakdown.engagement.weight = 0.3 ∧
    (goodResultAt 0).breakdown.contract.weight = 0.2 ∧
    (goodResultAt 0).breakdown.support.weight = 0.1 ∧
    (goodResultAt 0).breakdown.payment.weight + (goodResultAt 0).breakdown.engagement.weight +
      (goodResultAt 0).breakdown.contract.weight + (goodResultAt 0).breakdown.support.weight = 1 :=
  weights_fixed_sum_one 0 goodData (goodResultAt 0) (calculateHealthScore_goodData 0)

/-- C9: `calculateHealthScore` is deterministic apart from the timestamp:
two successful calls on the same input, at possibly different times, agree
on `overallScore`, `riskLevel` and the whole `breakdown`. -/
theorem health_deterministic_modulo_timestamp (t1 t2 : ℤ) (d : CustomerHealthData)
    (r1 r2 : HealthScoreResult) (h1 : calculateHealthScore t1 d = .ok r1)
    (h2 : calculateHealthScore t2 d = .ok r2) :
    r1.overallScore = r2.overallScore ∧ r1.riskLevel = r2.riskLevel ∧
      r1.breakdown = r2.breakdown := by
  obtain ⟨p1, e1, c1, s1, hp1, he1, hc1, hs1, rfl⟩ := calculateHealthScore_ok_inv h1
  obtain ⟨p2, e2, c2, s2, hp2, he2, hc2, hs2, rfl⟩ := calculateHealthScore_ok_inv h2
  rw [hp1] at hp2
  rw [he1] at he2
  rw [hc1] at hc2
  rw [hs1] at hs2
  obtain rfl : p1 = p2 := by injection hp2
  obtain rfl : e1 = e2 := by injection he2
  obtain rfl : c1 = c2 := by injection hc2
  obtain rfl : s1 = s2 := by injection hs2
  exact ⟨rfl, rfl, rfl⟩

/-- C9 witness: two calls on `goodData` at times 0 and 1 agree on
everything but the timestamp. -/
theorem health_deterministic_modulo_timestamp_witness :
    (goodResultAt 0).overallScore = (goodResultAt 1).overallScore ∧
    (goodResultAt 0).riskLevel = (goodResultAt 1).riskLevel ∧
    (goodResultAt 0).breakdown = (goodResultAt 1).breakdown :=
  health_deterministic_modulo_timestamp 0 1 goodData (goodResultAt 0) (goodResultAt 1)
    (calculateHealthScore_goodData 0) (calculateHealthScore_goodData 1)

/-- C1: on every successful result, `riskLevel` is determined by
`overallScore` through the three inclusive, contiguous, non-overlapping
intervals `[0,30] → critical`, `[31,70] → warning`, `[71,100] → healthy`. -/
theorem riskLevel_partition (now : ℤ) (d : CustomerHealthData)
    (r : HealthScoreResult) (h : calculateHealthScore now d = .ok r) :
    (r.riskLevel = .critical ↔ 0 ≤ r.overallScore ∧ r.overallScore ≤ 30) ∧
    (r.riskLevel = .warning ↔ 31 ≤ r.overallScore ∧ r.overallScore ≤ 70) ∧
    (r.riskLevel = .healthy ↔ 71 ≤ r.overallScore ∧ r.overallScore ≤ 100) := by
  obtain ⟨p, e, c, s, hp, he, hc, hs, rfl⟩ := calculateHealthScore_ok_inv h
  obtain ⟨hp0, hp1, -⟩ := calculatePaymentScore_ok_bounds hp
  obtain ⟨he0, he1, -⟩ := calculateEngagementScore_ok_bounds he
  obtain ⟨hc0, hc1, -⟩ := calculateContractScore_ok_bounds hc
  obtain ⟨hs0, hs1, -⟩ := calculateSupportScore_ok_bounds hs
  have hb : 0 ≤ jsRound (p * WEIGHTS_payment + e * WEIGHTS_engagement +
        c * WEIGHTS_contract + s * WEIGHTS_support) ∧
      jsRound (p * WEIGHTS_payment + e * WEIGHTS_engagement +
        c * WEIGHTS_contract + s * WEIGHTS_support) ≤ 100 ∧
      ∃ n : ℤ, jsRound (p * WEIGHTS_payment + e * WEIGHTS_engagement +
        c * WEIGHTS_contract + s * WEIGHTS_support) = (n : ℚ) := by
    simp only [WEIGHTS_payment, WEIGHTS_engagement, WEIGHTS_contract, WEIGHTS_support]
    exact jsRound_bounds (by nlinarith) (by nlinarith)
  obtain ⟨h0, h100, n, hn⟩ := hb
  simp only [hn] at h0 h100 ⊢
  have h0' : (0 : ℤ) ≤ n := by exact_mod_cast h0
  have h100' : n ≤ (100 : ℤ) := by exact_mod_cast h100
  have c71 : ((n : ℚ) ≥ 71) ↔ (71 : ℤ) ≤ n := by norm_cast
  have c31 : ((n : ℚ) ≥ 31) ↔ (31 : ℤ) ≤ n := by norm_cast
  have c30 : ((n : ℚ) ≤ 30) ↔ n ≤ (30 : ℤ) := by norm_cast
  have c70 : ((n : ℚ) ≤ 70) ↔ n ≤ (70 : ℤ) := by norm_cast
  have c100 : ((n : ℚ) ≤ 100) ↔ n ≤ (100 : ℤ) := by norm_cast
  have c0 : ((0 : ℚ) ≤ (n : ℚ)) ↔ (0 : ℤ) ≤ n := by norm_cast
  by_cases h71 : (71 : ℤ) ≤ n
  · rw [if_pos (c71.mpr h71)]
    refine ⟨?_, ?_, ?_⟩ <;> simp [c71, c31, c30, c70, c100, c0] <;> omega
  · rw [if_neg (fun hx => h71 (c71.mp hx))]
    by_cases h31 : (31 : ℤ) ≤ n
    · rw [if_pos (c31.mpr h31)]
      refine ⟨?_, ?_, ?_⟩ <;> simp [c71, c31, c30, c70, c100, c0] <;> omega
    · rw [if_neg (fun hx => h31 (c31.mp hx))]
      refine ⟨?_, ?_, ?_⟩ <;> simp [c71, c31, c30, c70, c100, c0] <;> omega

/-- C1 witness: the partition at the concrete fixture `goodData`, whose
overall score is 100 and risk level healthy. -/
theorem riskLevel_partition_witness :
    ((goodResultAt 0).riskLevel = .critical ↔
      0 ≤ (goodResultAt 0).overallScore ∧ (goodResultAt 0).overallScore ≤ 30) ∧
    ((goodResultAt 0).riskLevel = .warning ↔
      31 ≤ (goodResultAt 0).overallScore ∧ (goodResultAt 0).overallScore ≤ 70) ∧
    ((goodResultAt 0).riskLevel = .healthy ↔
      71 ≤ (goodResultAt 0).overallScore ∧ (goodResultAt 0).overallScore ≤ 100) :=
  riskLevel_partition 0 goodData (goodResultAt 0) (calculateHealthScore_goodData 0)

/-- C4: when the body of `calculateHealthScore` throws, an
`InvalidInputError` propagates unchanged, any other error is wrapped into a
`CalculationError` carrying the original message, and no result record is
returned. -/
theorem health_error_propagation (now : ℤ) (d : CustomerHealthData) (e : ScoreError)
    (h : healthScoreBody now d = .error e) :
    (e.isInvalidInput = true → calculateHealthScore now d = .error e) ∧
    (e.isInvalidInput = false →
      calculateHealthScore now d = .error (.calculationError
        ("Failed to calculate health score: " ++ e.message))) ∧
    (calculateHealthScore now d).isOk = false := by
  unfold calculateHealthScore
  rw [h]
  cases e <;>
    simp [wrapCaughtError, ScoreError.isInvalidInput, ScoreError.message, Except.isOk,
      Except.toBool]

/-- A record with a negative `daysSinceLastPayment`, on which the first
factor scorer throws. -/
def badHealthData : CustomerHealthData :=
  { goodData with payment := ⟨.num (-1), .num 0, .num 0, .undef⟩ }

/-- C4 witness: on `badHealthData` the thrown `InvalidInputError`
propagates unchanged out of `calculateHealthScore` and no result is
returned. -/
theorem health_error_propagation_witness :
    calculateHealthScore 0 badHealthData =
      .error (.invalidInput "daysSinceLastPayment must be non-negative, got -1") ∧
    (calculateHealthScore 0 badHealthData).isOk = false := by
  have h : healthScoreBody 0 badHealthData =
      .error (.invalidInput "daysSinceLastPayment must be non-negative, got -1") := by
    rfl
  obtain ⟨h1, -, h3⟩ := health_error_propagation 0 badHealthData _ h
  exact ⟨h1 rfl, h3⟩

/-- C6: with a degenerate range (`lo = hi`) both normalizers return the
neutral 50 (and, being total functions, never divide by zero or throw);
with `lo < hi` they are the clamped linear rescale onto `[0,100]`,
direction-preserving for `normalizeToScore` (monotone, `lo ↦ 0`,
`hi ↦ 100`) and direction-inverting for `inverseNormalizeToScore`
(antitone, the mirror image of `normalizeToScore`). -/
theorem normalize_degenerate_and_linear (value w lo hi : ℚ) :
    (lo = hi →
      normalizeToScore value lo hi = 50 ∧ inverseNormalizeToScore value lo hi = 50) ∧
    (lo < hi →
      normalizeToScore value lo hi = clampScore ((value - lo) / (hi - lo) * 100) ∧
      inverseNormalizeToScore value lo hi = clampScore ((hi - value) / (hi - lo) * 100) ∧
      inverseNormalizeToScore value lo hi = normalizeToScore (lo + hi - value) lo hi ∧
      normalizeToScore lo lo hi = 0 ∧ normalizeToScore hi lo hi = 100 ∧
      inverseNormalizeToScore lo lo hi = 100 ∧ inverseNormalizeToScore hi lo hi = 0) ∧
    (lo < hi → value ≤ w →
      normalizeToScore value lo hi ≤ normalizeToScore w lo hi ∧
      inverseNormalizeToScore w lo hi ≤ inverseNormalizeToScore value lo hi) := by
  refine ⟨fun h => ?_, fun hlt => ?_, fun hlt hvw => ?_⟩
  · simp [normalizeToScore, inverseNormalizeToScore, h]
  · have hne : hi ≠ lo := ne_of_gt hlt
    have hpos : (0 : ℚ) < hi - lo := sub_pos.2 hlt
    refine ⟨by rw [normalizeToScore, if_neg hne],
      by rw [inverseNormalizeToScore, if_neg hne], ?_, ?_, ?_, ?_, ?_⟩
    · rw [inverseNormalizeToScore, normalizeToScore, if_neg hne, if_neg hne]
      congr 1
      ring
    · rw [normalizeToScore, if_neg hne]
      norm_num [clampScore]
    · rw [normalizeToScore, if_neg hne, div_self (ne_of_gt hpos)]
      norm_num [clampScore]
    · rw [inverseNormalizeToScore, if_neg hne, div_self (ne_of_gt hpos)]
      norm_num [clampScore]
    · rw [inverseNormalizeToScore, if_neg hne]
      norm_num [clampScore]
  · have hne : hi ≠ lo := ne_of_gt hlt
    have hpos : (0 : ℚ) < hi - lo := sub_pos.2 hlt
    constructor
    · rw [normalizeToScore, normalizeToScore, if_neg hne, if_neg hne]
      refine clampScore_mono ?_
      refine mul_le_mul_of_nonneg_right ?_ (by norm_num)
      exact div_le_div_of_nonneg_right (by linarith) hpos.le
    · rw [inverseNormalizeToScore, inverseNormalizeToScore, if_neg hne, if_neg hne]
      refine clampScore_mono ?_
      refine mul_le_mul_of_nonneg_right ?_ (by norm_num)
      exact div_le_div_of_nonneg_right (by linarith) hpos.le

/-- C6 witness: the degenerate branch at `(5,2,2)` and the linear branch
with monotonicity at `(30,40,0,60)`. -/
theorem normalize_degenerate_and_linear_witness :
    (normalizeToScore 5 2 2 = 50 ∧ inverseNormalizeToScore 5 2 2 = 50) ∧
    (normalizeToScore 30 0 60 = clampScore ((30 - 0) / (60 - 0) * 100) ∧
      inverseNormalizeToScore 30 0 60 = clampScore ((60 - 30) / (60 - 0) * 100) ∧
      inverseNormalizeToScore 30 0 60 = normalizeToScore (0 + 60 - 30) 0 60 ∧
      normalizeToScore 0 0 60 = 0 ∧ normalizeToScore 60 0 60 = 100 ∧
      inverseNormalizeToScore 0 0 60 = 100 ∧ inverseNormalizeToScore 60 0 60 = 0) ∧
    (normalizeToScore 30 0 60 ≤ normalizeToScore 40 0 60 ∧
      inverseNormalizeToScore 40 0 60 ≤ inverseNormalizeToScore 30 0 60) :=
  ⟨(normalize_degenerate_and_linear 5 5 2 2).1 rfl,
   (normalize_degenerate_and_linear 30 40 0 60).2.1 (by norm_num),
   (normalize_degenerate_and_linear 30 40 0 60).2.2 (by norm_num) (by norm_num)⟩

/-- The contract-score formula exactly as the specification states it
(piecewise renewal score, value score, upgrade and auto-renewal bonuses,
capped at 100, clamped and rounded). -/
def contractScoreFormula (days contractValue : ℚ) (hasRecentUpgrades : Bool)
    (autoRenewalEnabled : Option Bool) : ℚ :=
  let renewalScore :=
    if days < 0 then (0 : ℚ)
    else if days < 30 then normalizeToScore days 0 30 * 0.5
    else if days < 180 then 50 + normalizeToScore (days - 30) 0 150 * 0.3
    else 80 + normalizeToScore (min (days - 180) 180) 0 180 * 0.2
  jsRound (clampScore (min 100 (0.5 * renewalScore +
    0.5 * normalizeToScore (min contractValue 100000) 0 100000 +
    (if hasRecentUpgrades then 15 else 0) +
    (if autoRenewalEnabled = some true then 10 else 0))))

/-- C7: every successful `calculateContractScore` call returns exactly the
piecewise formula of the specification on its field values. -/
theorem contract_score_formula_correct (d : ContractInfo) (q days cv : ℚ)
    (h : calculateContractScore d = .ok q) (hd : d.daysUntilRenewal = .num days)
    (hv : d.contractValue = .num cv) :
    q = contractScoreFormula days cv d.hasRecentUpgrades d.autoRenewalEnabled := by
  unfold calculateContractScore at h
  split at h
  · exact absurd h (by simp)
  · obtain rfl : _ = q := by injection h
    rw [hd, hv]
    show computeContractScore days cv _ _ = _
    unfold computeContractScore contractScoreFormula
    ring_nf

/-- C7 witness: the formula at the concrete contract of `goodData`
(360 days, value 100000, upgrades, auto-renewal), whose score is 100. -/
theorem contract_score_formula_correct_witness :
    (100 : ℚ) = contractScoreFormula 360 100000 true (some true) := by
  have h : calculateContractScore ⟨.num 360, .num 100000, true, some true⟩ = .ok 100 := by
    simp only [calculateContractScore, validateContract, computeContractScore,
      validateRequired, validateFiniteNumber, validateNonNegative, firstErr,
      JSVal.isFinite, JSVal.ltB, JSVal.toQ, normalizeToScore, clampScore, jsRound]
    norm_num [min_def, max_def, Rat.floor_def']
  exact contract_score_formula_correct ⟨.num 360, .num 100000, true, some true⟩
    100 360 100000 h rfl rfl

/-- C10: with logins, features at 0 and no active-user count, 15 opened
tickets score 0 but 16 opened tickets score 19: the ticket sub-score jumps
from `inverseNormalize(15,5,15) = 0` to `inverseNormalize(16,15,30) = 280/3
≈ 93.3` across the 15→16 boundary, so more tickets can yield a strictly
higher engagement score. -/
theorem engagement_ticket_nonmonotone :
    calculateEngagementScore ⟨.num 0, .num 0, .num 15, .undef⟩ = .ok 0 ∧
    calculateEngagementScore ⟨.num 0, .num 0, .num 16, .undef⟩ = .ok 19 ∧
    inverseNormalizeToScore 15 5 15 = 0 ∧
    inverseNormalizeToScore 16 15 30 = 280 / 3 ∧
    (0 : ℚ) < 19 ∧ (15 : ℚ) < 16 := by
  refine ⟨?_, ?_, ?_, ?_, by norm_num, by norm_num⟩ <;>
  · simp only [calculateEngagementScore, validateEngagement, computeEngagementScore,
      validateRequired, validateFiniteNumber, validateNonNegative, firstErr,
      JSVal.isFinite, JSVal.ltB, JSVal.toQ,
      normalizeToScore, inverseNormalizeToScore, clampScore, jsRound]
    norm_num [min_def, max_def, Rat.floor_def']

/-- Check order of `calculatePaymentScore` as described by the (amended)
specification: all presence checks in field declaration order, then all
finiteness checks in declaration order, then all non-negativity checks in
declaration order, then the finiteness and range checks of the optional field;
the first failing check supplies the error. -/
def paymentCheckOrder (d : PaymentHistory) : Option ScoreError :=
  if d.daysSinceLastPayment = .undef then
    some (.invalidInput (msgRequired "daysSinceLastPayment"))
  else if d.averagePaymentDelay = .undef then
    some (.invalidInput (msgRequired "averagePaymentDelay"))
  else if d.overdueAmount = .undef then
    some (.invalidInput (msgRequired "overdueAmount"))
  else if d.daysSinceLastPayment.isFinite then
    if d.averagePaymentDelay.isFinite then
      if d.overdueAmount.isFinite then
        if d.daysSinceLastPayment.ltB 0 then
          some (.invalidInput (msgNonNegative "daysSinceLastPayment" d.daysSinceLastPayment))
        else if d.averagePaymentDelay.ltB 0 then
          some (.invalidInput (msgNonNegative "averagePaymentDelay" d.averagePaymentDelay))
        else if d.overdueAmount.ltB 0 then
          some (.invalidInput (msgNonNegative "overdueAmount" d.overdueAmount))
        else if d.paymentConsistency = .undef then none
        else if d.paymentConsistency.isFinite then
          if d.paymentConsistency.ltB 0 || d.paymentConsistency.gtB 1 then
            some (.invalidInput (msgRange "paymentConsistency" 0 1 d.paymentConsistency))
          else none
        else some (.invalidInput (msgFinite "paymentConsistency" d.paymentConsistency))
      else some (.invalidInput (msgFinite "overdueAmount" d.overdueAmount))
    else some (.invalidInput (msgFinite "averagePaymentDelay" d.averagePaymentDelay))
  else some (.invalidInput (msgFinite "daysSinceLastPayment" d.daysSinceLastPayment))

/-- Check order of `calculateEngagementScore` (amended specification):
presence of the three required fields in declaration order, then their
finiteness, then their non-negativity, then the optional
finiteness and non-negativity checks of `activeUserCount`. -/
def engagementCheckOrder (d : EngagementMetrics) : Option ScoreError :=
  if d.loginsPerMonth = .undef then
    some (.invalidInput (msgRequired "loginsPerMonth"))
  else if d.featureUsageCount = .undef then
    some (.invalidInput (msgRequired "featureUsageCount"))
  else if d.supportTicketsOpened = .undef then
    some (.invalidInput (msgRequired "supportTicketsOpened"))
  else if d.loginsPerMonth.isFinite then
    if d.featureUsageCount.isFinite then
      if d.supportTicketsOpened.isFinite then
        if d.loginsPerMonth.ltB 0 then
          some (.invalidInput (msgNonNegative "loginsPerMonth" d.loginsPerMonth))
        else if d.featureUsageCount.ltB 0 then
          some (.invalidInput (msgNonNegative "featureUsageCount" d.featureUsageCount))
        else if d.supportTicketsOpened.ltB 0 then
          some (.invalidInput (msgNonNegative "supportTicketsOpened" d.supportTicketsOpened))
        else if d.activeUserCount = .undef then none
        else if d.activeUserCount.isFinite then
          if d.activeUserCount.ltB 0 then
            some (.invalidInput (msgNonNegative "activeUserCount" d.activeUserCount))
          else none
        else some (.invalidInput (msgFinite "activeUserCount" d.activeUserCount))
      else some (.invalidInput (msgFinite "supportTicketsOpened" d.supportTicketsOpened))
    else some (.invalidInput (msgFinite "featureUsageCount" d.featureUsageCount))
  else some (.invalidInput (msgFinite "loginsPerMonth" d.loginsPerMonth))

/-- Check order of `calculateContractScore` (amended specification):
presence of `daysUntilRenewal` and `contractValue` in declaration order,
then their finiteness in declaration order, then the non-negativity of
`contractValue` (no non-negativity check on `daysUntilRenewal`, which may
be negative).  The presence check on the boolean `hasRecentUpgrades` and
the boolean-type check on `autoRenewalEnabled` always pass on the typed
record. -/
def contractCheckOrder (d : ContractInfo) : Option ScoreError :=
  if d.daysUntilRenewal = .undef then
    some (.invalidInput (msgRequired "daysUntilRenewal"))
  else if d.contractValue = .undef then
    some (.invalidInput (msgRequired "contractValue"))
  else if d.daysUntilRenewal.isFinite then
    if d.contractValue.isFinite then
      if d.contractValue.ltB 0 then
        some (.invalidInput (msgNonNegative "contractValue" d.contractValue))
      else none
    else some (.invalidInput (msgFinite "contractValue" d.contractValue))
  else some (.invalidInput (msgFinite "daysUntilRenewal" d.daysUntilRenewal))

/-- Check order of `calculateSupportScore` (amended specification):
presence of the four fields in declaration order, then their finiteness,
then per field in declaration order its non-negativity (range `[1,5]` for
`satisfactionScore`). -/
def supportCheckOrder (d : SupportData) : Option ScoreError :=
  if d.averageResolutionTimeHours = .undef then
    some (.invalidInput (msgRequired "averageResolutionTimeHours"))
  else if d.satisfactionScore = .undef then
    some (.invalidInput (msgRequired "satisfactionScore"))
  else if d.escalationCount = .undef then
    some (.invalidInput (msgRequired "escalationCount"))
  else if d.openTicketCount = .undef then
    some (.invalidInput (msgRequired "openTicketCount"))
  else if d.averageResolutionTimeHours.isFinite then
    if d.satisfactionScore.isFinite then
      if d.escalationCount.isFinite then
        if d.openTicketCount.isFinite then
          if d.averageResolutionTimeHours.ltB 0 then
            some (.invalidInput
              (msgNonNegative "averageResolutionTimeHours" d.averageResolutionTimeHours))
          else if d.satisfactionScore.ltB 1 || d.satisfactionScore.gtB 5 then
            some (.invalidInput (msgRange "satisfactionScore" 1 5 d.satisfactionScore))
          else if d.escalationCount.ltB 0 then
            some (.invalidInput (msgNonNegative "escalationCount" d.escalationCount))
          else if d.openTicketCount.ltB 0 then
            some (.invalidInput (msgNonNegative "openTicketCount" d.openTicketCount))
          else none
        else some (.invalidInput (msgFinite "openTicketCount" d.openTicketCount))
      else some (.invalidInput (msgFinite "escalationCount" d.escalationCount))
    else some (.invalidInput (msgFinite "satisfactionScore" d.satisfactionScore))
  else some (.invalidInput (msgFinite "averageResolutionTimeHours" d.averageResolutionTimeHours))

theorem validatePayment_eq_checkOrder (d : PaymentHistory) :
    validatePayment d = paymentCheckOrder d := by
  unfold validatePayment paymentCheckOrder
  by_cases h1 : d.daysSinceLastPayment = .undef
  · simp [validateRequired, firstErr, h1]
  by_cases h2 : d.averagePaymentDelay = .undef
  · simp [validateRequired, firstErr, h1, h2]
  by_cases h3 : d.overdueAmount = .undef
  · simp [validateRequired, firstErr, h1, h2, h3]
  by_cases h4 : d.daysSinceLastPayment.isFinite
  case neg => simp [validateRequired, validateFiniteNumber, firstErr, h1, h2, h3, h4]
  by_cases h5 : d.averagePaymentDelay.isFinite
  case neg => simp [validateRequired, validateFiniteNumber, firstErr, h1, h2, h3, h4, h5]
  by_cases h6 : d.overdueAmount.isFinite
  case neg => simp [validateRequired, validateFiniteNumber, firstErr, h1, h2, h3, h4, h5, h6]
  by_cases h7 : d.daysSinceLastPayment.ltB 0
  · simp [validateRequired, validateFiniteNumber, validateNonNegative, firstErr,
      h1, h2, h3, h4, h5, h6, h7]
  by_cases h8 : d.averagePaymentDelay.ltB 0
  · simp [validateRequired, validateFiniteNumber, validateNonNegative, firstErr,
      h1, h2, h3, h4, h5, h6, h7, h8]
  by_cases h9 : d.overdueAmount.ltB 0
  · simp [validateRequired, validateFiniteNumber, validateNonNegative, firstErr,
      h1, h2, h3, h4, h5, h6, h7, h8, h9]
  by_cases h10 : d.paymentConsistency = .undef
  · simp [validateRequired, validateFiniteNumber, validateNonNegative, firstErr,
      h1, h2, h3, h4, h5, h6, h7, h8, h9, h10]
  by_cases h11 : d.paymentConsistency.isFinite
  case neg => simp [validateRequired, validateFiniteNumber, validateNonNegative, firstErr,
      h1, h2, h3, h4, h5, h6, h7, h8, h9, h10, h11]
  by_cases h12 : d.paymentConsistency.ltB 0 || d.paymentConsistency.gtB 1
  · simp [validateRequired, validateFiniteNumber, validateNonNegative, validateRange, firstErr,
      h1, h2, h3, h4, h5, h6, h7, h8, h9, h10, h11, h12]
  · simp [validateRequired, validateFiniteNumber, validateNonNegative, validateRange, firstErr,
      h1, h2, h3, h4, h5, h6, h7, h8, h9, h10, h11, h12]

theorem validateEngagement_eq_checkOrder (d : EngagementMetrics) :
    validateEngagement d = engagementCheckOrder d := by
  unfold validateEngagement engagementCheckOrder
  by_cases h1 : d.loginsPerMonth = .undef
  · simp [validateRequired, firstErr, h1]
  by_cases h2 : d.featureUsageCount = .undef
  · simp [validateRequired, firstErr, h1, h2]
  by_cases h3 : d.supportTicketsOpened = .undef
  · simp [validateRequired, firstErr, h1, h2, h3]
  by_cases h4 : d.loginsPerMonth.isFinite
  case neg => simp [validateRequired, validateFiniteNumber, firstErr, h1, h2, h3, h4]
  by_cases h5 : d.featureUsageCount.isFinite
  case neg => simp [validateRequired, validateFiniteNumber, firstErr, h1, h2, h3, h4, h5]
  by_cases h6 : d.supportTicketsOpened.isFinite
  case neg => simp [validateRequired, validateFiniteNumber, firstErr, h1, h2, h3, h4, h5, h6]
  by_cases h7 : d.loginsPerMonth.ltB 0
  · simp [validateRequired, validateFiniteNumber, validateNonNegative, firstErr,
      h1, h2, h3, h4, h5, h6, h7]
  by_cases h8 : d.featureUsageCount.ltB 0
  · simp [validateRequired, validateFiniteNumber, validateNonNegative, firstErr,
      h1, h2, h3, h4, h5, h6, h7, h8]
  by_cases h9 : d.supportTicketsOpened.ltB 0
  · simp [validateRequired, validateFiniteNumber, validateNonNegative, firstErr,
      h1, h2, h3, h4, h5, h6, h7, h8, h9]
  by_cases h10 : d.activeUserCount = .undef
  · simp [validateRequired, validateFiniteNumber, validateNonNegative, firstErr,
      h1, h2, h3, h4, h5, h6, h7, h8, h9, h10]
  by_cases h11 : d.activeUserCount.isFinite
  case neg => simp [validateRequired, validateFiniteNumber, validateNonNegative, firstErr,
      h1, h2, h3, h4, h5, h6, h7, h8, h9, h10, h11]
  by_cases h12 : d.activeUserCount.ltB 0
  · simp [validateRequired, validateFiniteNumber, validateNonNegative, firstErr,
      h1, h2, h3, h4, h5, h6, h7, h8, h9, h10, h11, h12]
  · simp [validateRequired, validateFiniteNumber, validateNonNegative, firstErr,
      h1, h2, h3, h4, h5, h6, h7, h8, h9, h10, h11, h12]

theorem validateSupport_eq_checkOrder (d : SupportData) :
    validateSupport d = supportCheckOrder d := by
  unfold validateSupport supportCheckOrder
  by_cases h1 : d.averageResolutionTimeHours = .undef
  · simp [validateRequired, firstErr, h1]
  by_cases h2 : d.satisfactionScore = .undef
  · simp [validateRequired, firstErr, h1, h2]
  by_cases h3 : d.escalationCount = .undef
  · simp [validateRequired, firstErr, h1, h2, h3]
  by_cases h4 : d.openTicketCount = .undef
  · simp [validateRequired, firstErr, h1, h2, h3, h4]
  by_cases h5 : d.averageResolutionTimeHours.isFinite
  case neg => simp [validateRequired, validateFiniteNumber, firstErr, h1, h2, h3, h4, h5]
  by_cases h6 : d.satisfactionScore.isFinite
  case neg => simp [validateRequired, validateFiniteNumber, firstErr, h1, h2, h3, h4, h5, h6]
  by_cases h7 : d.escalationCount.isFinite
  case neg => simp [validateRequired, validateFiniteNumber, firstErr,
      h1, h2, h3, h4, h5, h6, h7]
  by_cases h8 : d.openTicketCount.isFinite
  case neg => simp [validateRequired, validateFiniteNumber, firstErr,
      h1, h2, h3, h4, h5, h6, h7, h8]
  by_cases h9 : d.averageResolutionTimeHours.ltB 0
  · simp [validateRequired, validateFiniteNumber, validateNonNegative, firstErr,
      h1, h2, h3, h4, h5, h6, h7, h8, h9]
  by_cases h10 : d.satisfactionScore.ltB 1 || d.satisfactionScore.gtB 5
  · simp [validateRequired, validateFiniteNumber, validateNonNegative, validateRange, firstErr,
      h1, h2, h3, h4, h5, h6, h7, h8, h9, h10]
  by_cases h11 : d.escalationCount.ltB 0
  · simp [validateRequired, validateFiniteNumber, validateNonNegative, validateRange, firstErr,
      h1, h2, h3, h4, h5, h6, h7, h8, h9, h10, h11]
  by_cases h12 : d.openTicketCount.ltB 0
  · simp [validateRequired, validateFiniteNumber, validateNonNegative, validateRange, firstErr,
      h1, h2, h3, h4, h5, h6, h7, h8, h9, h10, h11, h12]
  · simp [validateRequired, validateFiniteNumber, validateNonNegative, validateRange, firstErr,
      h1, h2, h3, h4, h5, h6, h7, h8, h9, h10, h11, h12]

theorem validateContract_eq_checkOrder (d : ContractInfo) :
    validateContract d = contractCheckOrder d := by
  unfold validateContract contractCheckOrder
  by_cases h1 : d.daysUntilRenewal = .undef
  · simp [validateRequired, firstErr, h1]
  by_cases h2 : d.contractValue = .undef
  · simp [validateRequired, firstErr, h1, h2]
  by_cases h3 : d.daysUntilRenewal.isFinite
  case neg => simp [validateRequired, validateFiniteNumber, firstErr, h1, h2, h3]
  by_cases h4 : d.contractValue.isFinite
  case neg => simp [validateRequired, validateFiniteNumber, firstErr, h1, h2, h3, h4]
  by_cases h5 : d.contractValue.ltB 0
  · simp [validateRequired, validateFiniteNumber, validateNonNegative, firstErr,
      h1, h2, h3, h4, h5]
  · simp [validateRequired, validateFiniteNumber, validateNonNegative, firstErr,
      h1, h2, h3, h4, h5]

/-- C5 (amended): each of the four factor scorers raises the first failing
check in check-kind–major order — all presence checks in field declaration
order, then all finiteness checks, then all non-negativity/range checks,
with optional-field checks last — not field-by-field. -/
theorem validation_checkkind_order :
    (∀ d : PaymentHistory, errorOf (calculatePaymentScore d) = paymentCheckOrder d) ∧
    (∀ d : EngagementMetrics, errorOf (calculateEngagementScore d) = engagementCheckOrder d) ∧
    (∀ d : ContractInfo, errorOf (calculateContractScore d) = contractCheckOrder d) ∧
    (∀ d : SupportData, errorOf (calculateSupportScore d) = supportCheckOrder d) := by
  refine ⟨fun d => ?_, fun d => ?_, fun d => ?_, fun d => ?_⟩
  · unfold calculatePaymentScore
    rw [validatePayment_eq_checkOrder]
    rcases hh : paymentCheckOrder d with - | e <;> simp [errorOf]
  · unfold calculateEngagementScore
    rw [validateEngagement_eq_checkOrder]
    rcases hh : engagementCheckOrder d with - | e <;> simp [errorOf]
  · unfold calculateContractScore
    rw [validateContract_eq_checkOrder]
    rcases hh : contractCheckOrder d with - | e <;> simp [errorOf]
  · unfold calculateSupportScore
    rw [validateSupport_eq_checkOrder]
    rcases hh : supportCheckOrder d with - | e <;> simp [errorOf]

/-- C5 counterexample to field-by-field validation: `daysSinceLastPayment`
(the earlier field, negative) and `averagePaymentDelay` (the later field,
NaN) are both invalid, yet the raised error names the later field —
because the finiteness check of the later field runs before the
non-negativity check of the earlier one.  The final conjunct records that
the message does not mention `daysSinceLastPayment` at all. -/
theorem validation_not_fieldwise_counterexample :
    calculatePaymentScore ⟨.num (-1), .nan, .num 0, .undef⟩ =
      .error (.invalidInput "averagePaymentDelay must be a finite number, got NaN") ∧
    JSVal.ltB (.num (-1)) 0 = true ∧
    JSVal.isFinite .nan = false ∧
    ¬ ("daysSinceLastPayment".data <:+:
        "averagePaymentDelay must be a finite number, got NaN".data) := by
  refine ⟨by rfl, by rfl, by rfl, by decide⟩

/-- A list is a prefix (as `isPrefixOf`) of itself followed by anything. -/
theorem isPrefixOf_append_self (l t : List Char) : l.isPrefixOf (l ++ t) = true := by
  induction l with
  | nil => simp [List.isPrefixOf]
  | cons a as ih => simp [List.isPrefixOf, ih]

/-- C8 (amended): for a `SupportData` whose four fields are present and
finite, whose `averageResolutionTimeHours` is non-negative, and whose
`satisfactionScore` lies outside the inclusive range `[1,5]`,
`calculateSupportScore` throws an `InvalidInputError` whose message starts
with (hence names) the field `satisfactionScore`; and for any
`SupportData` whose `satisfactionScore` is a finite number outside
`[1,5]`, the call never returns a score. -/
theorem satisfaction_range_error (d d' : SupportData) (a q ec oc q' : ℚ)
    (ha : d.averageResolutionTimeHours = .num a) (hq : d.satisfactionScore = .num q)
    (he : d.escalationCount = .num ec) (ho : d.openTicketCount = .num oc)
    (hann : 0 ≤ a) (hout : q < 1 ∨ 5 < q)
    (hq' : d'.satisfactionScore = .num q') (hout' : q' < 1 ∨ 5 < q') :
    calculateSupportScore d =
      .error (.invalidInput (msgRange "satisfactionScore" 1 5 (.num q))) ∧
    ("satisfactionScore".data).isPrefixOf
      (msgRange "satisfactionScore" 1 5 (.num q)).data = true ∧
    (calculateSupportScore d').isOk = false := by
  have hcond : JSVal.ltB (.num q) 1 = true ∨ JSVal.gtB (.num q) 5 = true := by
    rcases hout with h | h
    · exact Or.inl (by simp [JSVal.ltB, h])
    · exact Or.inr (by simp [JSVal.gtB, h])
  have hannB : JSVal.ltB (.num a) 0 = false := by
    simp [JSVal.ltB, not_lt.2 hann]
  have hmain : calculateSupportScore d =
      .error (.invalidInput (msgRange "satisfactionScore" 1 5 (.num q))) := by
    unfold calculateSupportScore validateSupport
    rw [ha, hq, he, ho]
    simp [validateRequired, validateFiniteNumber, validateNonNegative, validateRange,
      firstErr, JSVal.isFinite, hannB, hcond]
  refine ⟨hmain, ?_, ?_⟩
  · have h := isPrefixOf_append_self "satisfactionScore".data
      (" must be between " ++ toString (1 : ℚ) ++ " and " ++ toString (5 : ℚ)
        ++ ", got " ++ JSVal.render (.num q)).data
    simp only [msgRange, String.append_assoc]
    simp only [String.data_append] at h ⊢
    exact h
  · unfold calculateSupportScore validateSupport
    have hcond' : JSVal.ltB (.num q') 1 = true ∨ JSVal.gtB (.num q') 5 = true := by
      rcases hout' with h | h
      · exact Or.inl (by simp [JSVal.ltB, h])
      · exact Or.inr (by simp [JSVal.gtB, h])
    rw [hq']
    rcases h1 : validateRequired d'.averageResolutionTimeHours "averageResolutionTimeHours"
      with - | e1
    case some => simp [firstErr, h1, Except.isOk, Except.toBool]
    rcases h3 : validateRequired d'.escalationCount "escalationCount" with - | e3
    case some => simp [firstErr, h1, h3, validateRequired, Except.isOk, Except.toBool]
    rcases h4 : validateRequired d'.openTicketCount "openTicketCount" with - | e4
    case some => simp [firstErr, h1, h3, h4, validateRequired, Except.isOk, Except.toBool]
    rcases h5 : validateFiniteNumber d'.averageResolutionTimeHours "averageResolutionTimeHours"
      with - | e5
    case some => simp [firstErr, h1, h3, h4, h5, validateRequired, Except.isOk, Except.toBool]
    rcases h7 : validateFiniteNumber d'.escalationCount "escalationCount" with - | e7
    case some => simp [firstErr, h1, h3, h4, h5, h7, validateRequired, validateFiniteNumber,
      JSVal.isFinite, Except.isOk, Except.toBool]
    rcases h8 : validateFiniteNumber d'.openTicketCount "openTicketCount" with - | e8
    case some => simp [firstErr, h1, h3, h4, h5, h7, h8, validateRequired, validateFiniteNumber,
      JSVal.isFinite, Except.isOk, Except.toBool]
    rcases h9 : validateNonNegative d'.averageResolutionTimeHours "averageResolutionTimeHours"
      with - | e9
    case some => simp [firstErr, h1, h3, h4, h5, h7, h8, h9, validateRequired,
      validateFiniteNumber, JSVal.isFinite, Except.isOk, Except.toBool]
    simp [firstErr, h1, h3, h4, h5, h7, h8, h9, validateRequired, validateFiniteNumber,
      validateNonNegative, validateRange, JSVal.isFinite, hcond', Except.isOk, Except.toBool]

/-- C8 counterexample to the unrestricted claim: `satisfactionScore = 6`
is finite and outside `[1,5]`, but because `averageResolutionTimeHours`
is NaN the thrown `InvalidInputError` names `averageResolutionTimeHours`,
not `satisfactionScore`. -/
theorem satisfaction_range_error_counterexample :
    calculateSupportScore ⟨.nan, .num 6, .num 0, .num 0⟩ =
      .error (.invalidInput "averageResolutionTimeHours must be a finite number, got NaN") ∧
    JSVal.isFinite (.num 6) = true ∧ (5 : ℚ) < 6 ∧
    ¬ ("satisfactionScore".data <:+:
        "averageResolutionTimeHours must be a finite number, got NaN".data) := by
  refine ⟨by rfl, by rfl, by norm_num, by decide⟩

/-- C8 witness: the amended theorem applied at the concrete record
`{averageResolutionTimeHours := 0, satisfactionScore := 6,
escalationCount := 0, openTicketCount := 0}`. -/
theorem satisfaction_range_error_witness :
    calculateSupportScore ⟨.num 0, .num 6, .num 0, .num 0⟩ =
      .error (.invalidInput (msgRange "satisfactionScore" 1 5 (.num 6))) ∧
    ("satisfactionScore".data).isPrefixOf
      (msgRange "satisfactionScore" 1 5 (.num 6)).data = true ∧
    (calculateSupportScore ⟨.num 0, .num 6, .num 0, .num 0⟩).isOk = false :=
  satisfaction_range_error ⟨.num 0, .num 6, .num 0, .num 0⟩ ⟨.num 0, .num 6, .num 0, .num 0⟩
    0 6 0 0 6 rfl rfl rfl rfl le_rfl (Or.inr (by norm_num)) rfl (Or.inr (by norm_num))

end Claims

end HealthCalc
